import Mathlib

/-!
Shallow embedding of the static-analysis and command-assembly core of
`src/pyexe.py` (the Smart PyInstaller Builder), together with theorems that
settle the frozen claims about it.

Conventions of the embedding:
  - A resolved filesystem path is its list of components (`Path.parts`
    without the root anchor), type `FsPath := List String`.
  - Python sets become `Finset`; Python `None` becomes `Option.none`;
    Python string truthiness is the test `≠ ""`.
  - Facts the code reads from the host (filesystem probes, the module
    lookup of `importlib.util.find_spec`, the matches of the
    `FILE_EXT_PATTERN` regex over a file, `os.name`, `sys.executable`)
    are passed in as explicit environment records, taken as one snapshot,
    exactly where the source consults them.
  - A fallible host operation is modelled with `Except`; a source-level
    `try/except` block becomes a `match` on that result.
-/

namespace SmartInstaller

/-- A resolved filesystem path: its components, root anchor dropped. -/
abbrev FsPath := List String

/-- `top_level_module` (pyexe.py line 85-86):
`name.split(".")[0] if name else name` - the characters before the first
dot (for a nonempty name), i.e. the top-level segment. -/
def top_level_module (name : String) : String :=
  if name = "" then name else String.mk (name.data.takeWhile (fun c => c != '.'))

/-! ## Command Assembler (`build_command`, lines 322-366) -/

/-- `data_sep` (line 54-55): the PyInstaller path-list separator,
`";" if os.name == "nt" else ":"`. -/
def data_sep (is_windows : Bool) : String := if is_windows then ";" else ":"

/-- `quote_path` (line 58-59): `str(p)`, the identity on path strings. -/
def quote_path (p : String) : String := p

/-- The host facts `build_command` consults: `sys.executable`,
`os.name == "nt"`, and `Path.exists` as one filesystem snapshot. -/
structure BuildEnv where
  python_exe : String
  is_windows : Bool
  file_on_disk : String → Bool

/-- The arguments of `build_command` (lines 322-337) gathered into one
record, the BuildSpec of the spec. `none` is Python `None`; the truthiness
tests of the source (`if name:`, `if runtime_tmpdir:`, `if extra_paths:`)
additionally treat the empty string / empty list as absent. -/
structure BuildSpec where
  script_path : String
  name : Option String
  onefile : Bool
  windowed : Bool
  clean : Bool
  icon_path : Option String
  add_datas : List (String × String)
  hidden_imports : List String
  collect_all_pkgs : List String
  extra_paths : Option (List String)
  noconfirm : Bool
  version_file : Option String
  noupx : Bool
  runtime_tmpdir : Option String

/-- `build_command` (lines 322-366), translated clause by clause in source
order. `if extra_paths:` in the source only guards a loop that is empty
anyway for `[]`, so `some []` and `none` both contribute nothing. -/
def build_command (env : BuildEnv) (s : BuildSpec) : List String :=
  let cmd := [env.python_exe, "-m", "PyInstaller"]
  let cmd := cmd ++ (if s.clean then ["--clean"] else [])
  let cmd := cmd ++ (if s.noconfirm then ["--noconfirm"] else [])
  let cmd := cmd ++ [if s.onefile then "--onefile" else "--onedir"]
  let cmd := cmd ++ (if s.windowed then ["--windowed"] else [])
  let cmd := cmd ++ (match s.name with
    | some n => if n = "" then [] else ["--name", n]
    | none => [])
  let cmd := cmd ++ (match s.icon_path with
    | some i => if env.file_on_disk i then ["--icon", quote_path i] else []
    | none => [])
  let cmd := cmd ++ s.add_datas.flatMap
    (fun pd => ["--add-data", quote_path pd.1 ++ data_sep env.is_windows ++ pd.2])
  let cmd := cmd ++ s.hidden_imports.flatMap (fun hi => ["--hidden-import", hi])
  let cmd := cmd ++ s.collect_all_pkgs.flatMap (fun pkg => ["--collect-all", pkg])
  let cmd := cmd ++ (match s.extra_paths with
    | some eps => eps.flatMap (fun ep => ["--paths", quote_path ep])
    | none => [])
  let cmd := cmd ++ (if s.noupx then ["--noupx"] else [])
  let cmd := cmd ++ (match s.runtime_tmpdir with
    | some r => if r = "" then [] else ["--runtime-tmpdir", r]
    | none => [])
  let cmd := cmd ++ (match s.version_file with
    | some v => if env.file_on_disk v then ["--version-file", quote_path v] else []
    | none => [])
  cmd ++ [quote_path s.script_path]

/-! Spec-side rendering of section 4.7: one definition per clause of the
order-fixed assembly sentence, concatenated in the order the spec lists
them. `build_command` is proved equal to this rendering. -/

/-- Spec 4.7: interpreter/bundler invocation. -/
def seg_invocation (env : BuildEnv) : List String := [env.python_exe, "-m", "PyInstaller"]

/-- Spec 4.7: optional clean flag. -/
def seg_clean (s : BuildSpec) : List String := if s.clean then ["--clean"] else []

/-- Spec 4.7: optional no-confirm flag. -/
def seg_noconfirm (s : BuildSpec) : List String := if s.noconfirm then ["--noconfirm"] else []

/-- Spec 4.7: exactly one of the single-file/one-directory mode flags. -/
def seg_mode (s : BuildSpec) : List String := [if s.onefile then "--onefile" else "--onedir"]

/-- Spec 4.7: optional windowed flag. -/
def seg_windowed (s : BuildSpec) : List String := if s.windowed then ["--windowed"] else []

/-- Spec 4.7: optional output name, when given (Python-truthy). -/
def seg_name (s : BuildSpec) : List String :=
  match s.name with
  | some n => if n = "" then [] else ["--name", n]
  | none => []

/-- Spec 4.7: optional icon, only if the icon path is on disk. -/
def seg_icon (env : BuildEnv) (s : BuildSpec) : List String :=
  match s.icon_path with
  | some i => if env.file_on_disk i then ["--icon", quote_path i] else []
  | none => []

/-- Spec 4.7: one data-mapping argument per mapping, source and destination
joined by the platform path-list separator. -/
def seg_datas (env : BuildEnv) (s : BuildSpec) : List String :=
  s.add_datas.flatMap
    (fun pd => ["--add-data", quote_path pd.1 ++ data_sep env.is_windows ++ pd.2])

/-- Spec 4.7: one hidden-import argument per name. -/
def seg_hidden (s : BuildSpec) : List String :=
  s.hidden_imports.flatMap (fun hi => ["--hidden-import", hi])

/-- Spec 4.7: one bundle-all argument per heavy package. -/
def seg_collect (s : BuildSpec) : List String :=
  s.collect_all_pkgs.flatMap (fun pkg => ["--collect-all", pkg])

/-- Spec 4.7: one search-path argument per extra path. -/
def seg_paths (s : BuildSpec) : List String :=
  match s.extra_paths with
  | some eps => eps.flatMap (fun ep => ["--paths", quote_path ep])
  | none => []

/-- Spec 4.7: optional no-compression flag. -/
def seg_noupx (s : BuildSpec) : List String := if s.noupx then ["--noupx"] else []

/-- Spec 4.7: optional runtime temp-dir argument, when given. -/
def seg_runtime (s : BuildSpec) : List String :=
  match s.runtime_tmpdir with
  | some r => if r = "" then [] else ["--runtime-tmpdir", r]
  | none => []

/-- Spec 4.7: optional version-resource argument, only if that file is on disk. -/
def seg_version (env : BuildEnv) (s : BuildSpec) : List String :=
  match s.version_file with
  | some v => if env.file_on_disk v then ["--version-file", quote_path v] else []
  | none => []

/-- The order-fixed assembly of spec section 4.7, segments concatenated in
the order the spec sentence lists them, entry script last. -/
def build_command_spec (env : BuildEnv) (s : BuildSpec) : List String :=
  seg_invocation env ++ seg_clean s ++ seg_noconfirm s ++ seg_mode s ++
    seg_windowed s ++ seg_name s ++ seg_icon env s ++ seg_datas env s ++
    seg_hidden s ++ seg_collect s ++ seg_paths s ++ seg_noupx s ++
    seg_runtime s ++ seg_version env s ++ [s.script_path]

/-! ## Module Classifier (`is_third_party`, lines 96-110) -/

/-- The part of an `importlib.machinery.ModuleSpec` the classifier reads:
its `origin` (`None`, `"built-in"`, or a filesystem location). -/
structure ModSpec where
  origin : Option String

/-- The environment snapshot the classifier consults: the module lookup
(`importlib.util.find_spec`, which may raise - `Except.error`), path
resolution, and the resolved standard-library directory. -/
structure ClassifyEnv where
  find_spec : String → Except Unit (Option ModSpec)
  resolve_path : String → FsPath
  stdlib_path : FsPath

/-- `anc in p.parents` for resolved component paths: `anc` is a proper
prefix of `p`. -/
def path_in_parents (anc p : FsPath) : Bool :=
  anc.isPrefixOf p && anc != p

/-- `is_third_party` (lines 96-110). Only key membership of the
`packages_distributions` dict matters, so it is a `Finset`. The source
`try` block around the lookup becomes the `match` on `Except`. -/
def is_third_party (mod : String) (stdlib : Finset String) (pkg_map : Finset String)
    (env : ClassifyEnv) : Bool :=
  let m := top_level_module mod
  if m = "" ∨ m ∈ stdlib then false
  else if m ∈ pkg_map then true
  else
    match env.find_spec m with
    | Except.error _ => true
    | Except.ok none => false
    | Except.ok (some sp) =>
      match sp.origin with
      | none => false
      | some o =>
        if o = "built-in" then false
        else
          let origin := env.resolve_path o
          !path_in_parents env.stdlib_path origin && origin != env.stdlib_path

/-! ## Source Import Extractor (`parse_imports_from_file`, lines 114-175) -/

/-- The callee of a call node: `ast.Attribute` (its `attr` field),
`ast.Name` (its `id` field), or any other expression. -/
inductive Callee
  | attr (a : String)
  | ident (i : String)
  | otherFunc

/-- An argument expression, reduced to what `_extract_str_constant` can
distinguish: a string constant (`ast.Constant` holding a `str`) or
anything else (non-string constants included). -/
inductive PyExpr
  | strConst (s : String)
  | otherExpr

/-- An `ast.keyword`: `kw.arg` (none for `**kwargs`) and its value. -/
structure PyKeyword where
  arg : Option String
  value : PyExpr

/-- A node as `ast.walk` visits it, reduced to the four shapes the walk
loop of `parse_imports_from_file` distinguishes: `ast.Import` (its alias
names), `ast.ImportFrom` (its `module`, none for a relative form without a
named module), `ast.Call`, anything else. -/
inductive PyNode
  | importStmt (names : List String)
  | importFrom (module : Option String)
  | call (func : Callee) (args : List PyExpr) (keywords : List PyKeyword)
  | otherNode

/-- `_extract_str_constant` (lines 114-131): the string value of a string
constant node, `none` otherwise. -/
def _extract_str_constant : PyExpr → Option String
  | PyExpr.strConst s => some s
  | PyExpr.otherExpr => none

/-- Lines 151-155: the callee name, empty when the callee is neither an
attribute nor a bare name. -/
def func_name_of : Callee → String
  | Callee.attr a => a
  | Callee.ident i => i
  | Callee.otherFunc => ""

/-- The keyword loop of lines 163-168. `mod` carries the value the loop
variable holds on entry; a matching keyword overwrites it with the
extraction result and the loop breaks exactly when that result is truthy
(a nonempty string). The return value is the final value of `mod`. -/
def kw_scan (mod : Option String) : List PyKeyword → Option String
  | [] => mod
  | k :: ks =>
    if k.arg = some "name" ∨ k.arg = some "module" then
      match _extract_str_constant k.value with
      | some s => if s = "" then kw_scan (some s) ks else some s
      | none => kw_scan none ks
    else kw_scan mod ks

/-- Lines 158-168: `mod` from the first positional argument when present,
keyword fallback (`name=` / `module=`) only when that left `mod` as
`None` - a present-but-empty string literal blocks the fallback. -/
def dyn_mod (args : List PyExpr) (keywords : List PyKeyword) : Option String :=
  let mod := match args with
    | [] => none
    | a :: _ => _extract_str_constant a
  match mod with
  | none => kw_scan none keywords
  | some s => some s

/-- One iteration of the `ast.walk` loop (lines 140-172) on the state
(imports, dynamic). `if mod:` of line 169 is the `s = ""` test. -/
def parse_step (st : Finset String × Finset String) : PyNode → Finset String × Finset String
  | PyNode.importStmt names =>
    (names.foldl (fun acc nm => if nm = "" then acc else insert (top_level_module nm) acc) st.1,
     st.2)
  | PyNode.importFrom (some m) =>
    if m = "" then st else (insert (top_level_module m) st.1, st.2)
  | PyNode.importFrom none => st
  | PyNode.call f args keywords =>
    if func_name_of f = "import_module" ∨ func_name_of f = "__import__" then
      match dyn_mod args keywords with
      | some s => if s = "" then st else (st.1, insert (top_level_module s) st.2)
      | none => st
    else st
  | PyNode.otherNode => st

/-- `parse_imports_from_file` (lines 134-175). The argument is the outcome
of reading and parsing the file: `none` when `read_text` or `ast.parse`
raised (the enclosing `try` then returns the still-empty sets), `some`
the walked node list otherwise. -/
def parse_imports_from_file (parsed : Option (List PyNode)) : Finset String × Finset String :=
  match parsed with
  | none => (∅, ∅)
  | some nodes => nodes.foldl parse_step (∅, ∅)

/-! Spec-side rendering for the static-only property (sections 4.2 / 8). -/

/-- Spec side: the top-level module names one static import statement
references (`from`-imports without a named module reference none). -/
def stmt_tops : PyNode → List String
  | PyNode.importStmt names => names.map top_level_module
  | PyNode.importFrom (some m) => [top_level_module m]
  | PyNode.importFrom none => []
  | _ => []

/-- A node is a static import statement whose module names are well formed
(nonempty), as every real parse produces. -/
def static_wf : PyNode → Bool
  | PyNode.importStmt names => names.all (fun nm => nm != "")
  | PyNode.importFrom (some m) => m != ""
  | PyNode.importFrom none => true
  | _ => false

/-! ## Literal File Reference Extractor and Project Scanner
(`find_literal_files` lines 178-202, `scan_project` lines 205-225) -/

/-- The host facts the scanner consults, one snapshot per scan:
`tokens f` is the list of `FILE_EXT_PATTERN.finditer` matches over the
text of `f` (`none` when reading raised; the regex itself is abstracted,
the claims quantify over matched tokens); `parsed f` the parse outcome of
`f` as for `parse_imports_from_file`; `to_candidate f raw` the normalised
token resolved against the directory of `f` (lines 187-190: the
backslash rewrite, then absolute tokens as-is, relative ones joined to
`f.parent` and resolved); `on_disk` / `is_file` the filesystem probes;
`resolve` is `Path.resolve`; `rglob_py root` the files `root.rglob("*.py")`
yields. -/
structure ScanEnv where
  tokens : FsPath → Option (List String)
  parsed : FsPath → Option (List PyNode)
  to_candidate : FsPath → String → FsPath
  on_disk : FsPath → Bool
  is_file : FsPath → Bool
  resolve : FsPath → FsPath
  rglob_py : FsPath → List FsPath

/-- One iteration of the token loop of `find_literal_files` (lines
182-199). Lines 193-198 test `startswith(project_root)` but add the
candidate in every branch, so the test is dropped here; the candidate is
kept only when it is on disk and a regular file. -/
def literal_fold_step (env : ScanEnv) (py_file : FsPath) (found : Finset FsPath)
    (raw : String) : Finset FsPath :=
  if raw = "" then found
  else if env.on_disk (env.to_candidate py_file raw) &&
      env.is_file (env.to_candidate py_file raw) then
    insert (env.to_candidate py_file raw) found
  else found

/-- `find_literal_files` (lines 178-202); `none` tokens = the read raised,
the enclosing `try` returns the empty set. -/
def find_literal_files (env : ScanEnv) (py_file : FsPath) (project_root : FsPath) :
    Finset FsPath :=
  match env.tokens py_file with
  | none => ∅
  | some ts => ts.foldl (literal_fold_step env py_file) ∅

/-- One iteration of the file loop of `scan_project` (lines 215-219):
union in one file's imports, dynamic imports and literal files. -/
def scan_step (env : ScanEnv) (project_root : FsPath)
    (acc : Finset String × Finset String × Finset FsPath) (f : FsPath) :
    Finset String × Finset String × Finset FsPath :=
  let r := parse_imports_from_file (env.parsed f)
  (acc.1 ∪ r.1, acc.2.1 ∪ r.2, acc.2.2 ∪ find_literal_files env f project_root)

/-- Lines 206-211: the collected file list - the entry script exactly as
given (not resolved), then, when scanning the whole project, every
`rglob("*.py")` entry under the resolved script directory that is a
regular file, resolved. -/
def scan_files (env : ScanEnv) (script_path : FsPath) (scan_all_py : Bool) : List FsPath :=
  script_path ::
    (if scan_all_py then
      ((env.rglob_py (env.resolve script_path.dropLast)).filter env.is_file).map env.resolve
     else [])

/-- The record `scan_project` returns (lines 220-225). -/
structure ScanResult where
  project_root : FsPath
  imports : Finset String
  dynamic_imports : Finset String
  literal_files : Finset FsPath

/-- `scan_project` (lines 205-225). `for f in set(files)` iterates the
value-deduplicated collection; the aggregation is order-insensitive set
union, so the deduplicated list stands in for the Python set. -/
def scan_project (env : ScanEnv) (script_path : FsPath) (scan_all_py : Bool) : ScanResult :=
  let project_root := env.resolve script_path.dropLast
  let agg := ((scan_files env script_path scan_all_py).dedup).foldl
      (scan_step env project_root) (∅, ∅, ∅)
  { project_root := project_root
    imports := agg.1
    dynamic_imports := agg.2.1
    literal_files := agg.2.2 }

/-! ## Data/Path Mapper (`map_add_data_entries`, lines 237-249) -/

/-- `p.relative_to(root)` for resolved component paths: the remainder when
the components of `root` are a prefix of those of `p`, `none` for the
`ValueError` the source catches. -/
def relative_to (root p : FsPath) : Option FsPath :=
  if root.isPrefixOf p then some (p.drop root.length) else none

/-- `str()` of a relative component path: `"."` for the empty path, the
components joined by the platform separator otherwise. -/
def str_of_rel (sep : String) (parts : FsPath) : String :=
  if parts.isEmpty then "." else String.intercalate sep parts

/-- `Path.name`: the final component, `""` when there is none. -/
def path_name (p : FsPath) : String := p.getLast?.getD ""

/-- The loop body of `map_add_data_entries` (lines 239-248) for one path:
resolve, then destination = parent of the relative path for files / the
relative path itself for non-files when under the root (the line 244-245
`if dest == ".": dest = "."` no-op is kept), and `p.name` otherwise
(line 247 reads `p.name if p.is_file() else p.name` - both branches are
kept as written). -/
def map_entry_of (is_file : FsPath → Bool) (resolve : FsPath → FsPath) (sep : String)
    (project_root : FsPath) (p0 : FsPath) : FsPath × String :=
  let p := resolve p0
  match relative_to project_root p with
  | some rel =>
    let dest := if is_file p then str_of_rel sep rel.dropLast else str_of_rel sep rel
    let dest := if dest = "." then "." else dest
    (p, dest)
  | none =>
    (p, if is_file p then path_name p else path_name p)

/-- `map_add_data_entries` (lines 237-249): the loop appends one entry per
input path, in order, with no duplicate suppression. -/
def map_add_data_entries (is_file : FsPath → Bool) (resolve : FsPath → FsPath) (sep : String)
    (paths : List FsPath) (project_root : FsPath) : List (FsPath × String) :=
  paths.map (map_entry_of is_file resolve sep project_root)

/-! ## Concrete environments used by witnesses and counterexamples -/

/-- A scan environment in which every file fails to read and to parse, the
walk finds nothing and resolution is the identity. -/
def null_scan_env : ScanEnv :=
  { tokens := fun _ => none
    parsed := fun _ => none
    to_candidate := fun _ _ => []
    on_disk := fun _ => false
    is_file := fun _ => true
    resolve := fun p => p
    rglob_py := fun _ => [] }

/-- A scan environment whose one source file yields one literal token that
resolves to an existing regular file. -/
def lit_scan_env : ScanEnv :=
  { tokens := fun _ => some ["a.txt"]
    parsed := fun _ => none
    to_candidate := fun _ _ => ["r", "a.txt"]
    on_disk := fun _ => true
    is_file := fun _ => true
    resolve := fun p => p
    rglob_py := fun _ => [] }

/-- A resolution function under which the unresolved path
`["rel", "m.py"]` and the resolved path `["abs", "m.py"]` denote the same
file. -/
def cex_resolve : FsPath → FsPath :=
  fun p => if p = ["rel", "m.py"] then ["abs", "m.py"] else p

/-- A scan environment in which the recursive walk finds (in resolved
form) the very file the entry script denotes, while the entry script path
is handed over unresolved. -/
def cex_scan_env : ScanEnv :=
  { tokens := fun _ => none
    parsed := fun _ => none
    to_candidate := fun _ _ => []
    on_disk := fun _ => false
    is_file := fun _ => true
    resolve := cex_resolve
    rglob_py := fun _ => [["abs", "m.py"]] }

/-- A classifier environment whose module lookup always raises. -/
def err_classify_env : ClassifyEnv :=
  { find_spec := fun _ => Except.error ()
    resolve_path := fun _ => []
    stdlib_path := [] }

/-! ## Theorems -/

/-- Helper: a list that ends in an explicit singleton has that element as
its last one. -/
theorem getLast?_append_single {α : Type} (l : List α) (a : α) :
    (l ++ [a]).getLast? = some a := by
  simp [List.getLast?_concat]

/-- C1: for every host environment and BuildSpec, `build_command` produces
exactly the order-fixed assembly of spec section 4.7 - invocation, clean
flag, no-confirm flag, one mode flag, windowed flag, output name, icon
(only when on disk), one data-mapping argument per mapping with the
platform separator, one hidden-import argument per name, one collect-all
argument per heavy package, one search-path argument per extra path,
no-compression flag, runtime-temp-dir argument, version-resource argument
(only when on disk) - and the entry script path is the last element. -/
theorem build_command_matches_spec_order (env : BuildEnv) (s : BuildSpec) :
    build_command env s = build_command_spec env s
    ∧ (build_command env s).getLast? = some s.script_path := by
  have h : build_command env s = build_command_spec env s := by
    simp only [build_command, build_command_spec, seg_invocation, seg_clean, seg_noconfirm,
      seg_mode, seg_windowed, seg_name, seg_icon, seg_datas, seg_hidden, seg_collect,
      seg_paths, seg_noupx, seg_runtime, seg_version, quote_path, List.append_assoc]
  refine ⟨h, ?_⟩
  have h2 : build_command_spec env s =
      (seg_invocation env ++ seg_clean s ++ seg_noconfirm s ++ seg_mode s ++
        seg_windowed s ++ seg_name s ++ seg_icon env s ++ seg_datas env s ++
        seg_hidden s ++ seg_collect s ++ seg_paths s ++ seg_noupx s ++
        seg_runtime s ++ seg_version env s) ++ [s.script_path] := by
    simp [build_command_spec, List.append_assoc]
  rw [h, h2, getLast?_append_single]

/-- C2 counterexample: `map_add_data_entries` suppresses nothing - feeding
the same path twice yields the identical (source, destination) pair twice,
refuting the claim that no two returned entries are the identical pair. -/
theorem map_add_data_entries_duplicate_pair :
    map_add_data_entries (fun _ => true) (fun p => p) "/"
        [["r", "a.txt"], ["r", "a.txt"]] ["r"]
      = [(["r", "a.txt"], "."), (["r", "a.txt"], ".")]
    ∧ ¬ (map_add_data_entries (fun _ => true) (fun p => p) "/"
        [["r", "a.txt"], ["r", "a.txt"]] ["r"]).Nodup := by
  decide

/-- Helper: the source component of the entry built for one path is that
path, resolved. -/
theorem map_entry_of_fst (is_file : FsPath → Bool) (resolve : FsPath → FsPath)
    (sep : String) (project_root : FsPath) (p0 : FsPath) :
    (map_entry_of is_file resolve sep project_root p0).1 = resolve p0 := by
  simp only [map_entry_of]
  rcases relative_to project_root (resolve p0) with _ | rel <;> simp

/-- C2 (amended): whenever the input paths resolve to pairwise distinct
paths - as with the deduplicated literal-file set the program feeds in -
the list `map_add_data_entries` returns contains no two identical
(source, destination) pairs; without that proviso duplicates pass through
unsuppressed. -/
theorem map_add_data_entries_nodup_of_resolved_nodup (is_file : FsPath → Bool)
    (resolve : FsPath → FsPath) (sep : String) (paths : List FsPath)
    (project_root : FsPath) (h : (paths.map resolve).Nodup) :
    (map_add_data_entries is_file resolve sep paths project_root).Nodup := by
  have hfst : (map_add_data_entries is_file resolve sep paths project_root).map Prod.fst
      = paths.map resolve := by
    simp only [map_add_data_entries, List.map_map]
    exact List.map_congr_left (fun p0 _ => map_entry_of_fst is_file resolve sep project_root p0)
  rw [← hfst] at h
  exact h.of_map Prod.fst

/-- C2 witness: two distinct input paths give a duplicate-free mapping
list. -/
theorem map_add_data_entries_nodup_witness :
    (map_add_data_entries (fun _ => true) (fun p => p) "/"
      [["r", "a.txt"], ["r", "b.txt"]] ["r"]).Nodup :=
  map_add_data_entries_nodup_of_resolved_nodup (fun _ => true) (fun p => p) "/"
    [["r", "a.txt"], ["r", "b.txt"]] ["r"] (by decide)

/-- C3 counterexample: `importlib.import_module("")` has a string-literal
first positional argument, yet the walk adds nothing to dynamic_imports
(the truthiness test `if mod:` rejects the empty string), refuting the
claim that every string-literal first argument contributes its top-level
segment. -/
theorem dynamic_import_empty_literal_not_added :
    _extract_str_constant (PyExpr.strConst "") = some ""
    ∧ func_name_of (Callee.ident "import_module") = "import_module"
    ∧ parse_imports_from_file
        (some [PyNode.call (Callee.ident "import_module") [PyExpr.strConst ""] []])
      = (∅, ∅) := by
  decide

/-- C3 (amended): for a call whose callee name is a dynamic-import
invocation name, the walk step adds the top-level segment of the name
taken from the first positional argument when that is a nonempty string
literal, else from the first `name=`/`module=` keyword holding a nonempty
string literal (consulted only when the positional phase produced `None`);
when no nonempty string literal is found the step leaves the state
unchanged - nothing is added for that call. -/
theorem parse_step_dynamic_import (st : Finset String × Finset String)
    (f : Callee) (args : List PyExpr) (keywords : List PyKeyword) (s : String)
    (hf : func_name_of f = "import_module" ∨ func_name_of f = "__import__") :
    (args.head? = some (PyExpr.strConst s) → s ≠ "" →
      parse_step st (PyNode.call f args keywords)
        = (st.1, insert (top_level_module s) st.2))
    ∧ ((match args with
        | [] => none
        | a :: _ => _extract_str_constant a) = (none : Option String) →
      kw_scan none keywords = some s → s ≠ "" →
      parse_step st (PyNode.call f args keywords)
        = (st.1, insert (top_level_module s) st.2))
    ∧ ((dyn_mod args keywords = none ∨ dyn_mod args keywords = some "") →
      parse_step st (PyNode.call f args keywords) = st) := by
  refine ⟨?_, ?_, ?_⟩
  · intro hargs hs
    rcases args with _ | ⟨a, rest⟩
    · simp at hargs
    · simp only [List.head?] at hargs
      obtain rfl : a = PyExpr.strConst s := by injection hargs
      simp [parse_step, hf, dyn_mod, _extract_str_constant, hs]
  · intro hpos hkw hs
    simp [parse_step, hf, dyn_mod, hpos, hkw, hs]
  · intro hnone
    rcases hnone with hnone | hnone <;> simp [parse_step, hf, hnone]

/-- C3 witness: `__import__("os.path")` adds `os` to the dynamic set. -/
theorem parse_step_dynamic_import_witness :
    parse_step ((∅ : Finset String), (∅ : Finset String))
        (PyNode.call (Callee.ident "__import__") [PyExpr.strConst "os.path"] [])
      = ((∅ : Finset String), insert (top_level_module "os.path") (∅ : Finset String)) :=
  (parse_step_dynamic_import (∅, ∅) (Callee.ident "__import__")
      [PyExpr.strConst "os.path"] [] "os.path" (Or.inr rfl)).1 rfl (by decide)

/-- C4: when classification reaches the import-system lookup (the name is
nonempty, not standard-library, not an installed-package key) and that
lookup raises, `is_third_party` resolves the failure conservatively to
`true`; the `Bool` return type itself shows the error is never
propagated. -/
theorem is_third_party_true_on_lookup_error (mod : String)
    (stdlib pkg_map : Finset String) (env : ClassifyEnv)
    (h1 : top_level_module mod ≠ "") (h2 : top_level_module mod ∉ stdlib)
    (h3 : top_level_module mod ∉ pkg_map)
    (h4 : env.find_spec (top_level_module mod) = Except.error ()) :
    is_third_party mod stdlib pkg_map env = true := by
  simp only [is_third_party]
  rw [if_neg (by simp [h1, h2]), if_neg h3, h4]

/-- C4 witness: a module nowhere recorded, under a lookup that always
raises, classifies as third-party. -/
theorem is_third_party_lookup_error_witness :
    is_third_party "foo" ∅ ∅ err_classify_env = true :=
  is_third_party_true_on_lookup_error "foo" ∅ ∅ err_classify_env
    (by decide) (by decide) (by decide) rfl

/-- C5 counterexample: a dotted name whose top-level segment is empty
(`".x"`) is nonempty, its top-level segment is outside the synthetic
stdlib set and is a key of the synthetic package map, yet `is_third_party`
returns `false` (the code rejects every falsy top-level segment up
front), refuting the claim as stated. -/
theorem is_third_party_empty_toplevel_key_cex :
    (".x" : String) ≠ ""
    ∧ top_level_module ".x" ∉ (∅ : Finset String)
    ∧ top_level_module ".x" ∈ ({""} : Finset String)
    ∧ is_third_party ".x" ∅ {""} err_classify_env = false := by
  decide

/-- C5 (amended): the empty name classifies as not-third-party; a name
whose top-level segment is in the standard-library set classifies as
not-third-party; and otherwise a name whose top-level segment is nonempty
and a key of the installed-package map classifies as third-party (a name
with an empty top-level segment is rejected up front like the empty
name). -/
theorem is_third_party_basic_classification (mod : String)
    (stdlib pkg_map : Finset String) (env : ClassifyEnv) :
    is_third_party "" stdlib pkg_map env = false
    ∧ (top_level_module mod ∈ stdlib → is_third_party mod stdlib pkg_map env = false)
    ∧ (top_level_module mod ≠ "" → top_level_module mod ∉ stdlib →
        top_level_module mod ∈ pkg_map → is_third_party mod stdlib pkg_map env = true) := by
  refine ⟨?_, ?_, ?_⟩
  · simp [is_third_party, top_level_module]
  · intro h
    simp [is_third_party, h]
  · intro h1 h2 h3
    simp [is_third_party, h1, h2, h3]

/-- C5 witness: with stdlib {os} and package map {requests}, the dotted
name requests.adapters classifies as third-party. -/
theorem is_third_party_basic_witness :
    is_third_party "requests.adapters" {"os"} {"requests"} err_classify_env = true :=
  (is_third_party_basic_classification "requests.adapters" {"os"} {"requests"}
      err_classify_env).2.2 (by decide) (by decide) (by decide)

/-- C6: an unreadable or unparseable file yields the pair of empty sets
rather than an error, and inside the file loop of `scan_project` such a
file is a no-op - the fold over any file list containing it aggregates
exactly the contributions of the remaining files. -/
theorem parse_failure_degrades_and_scan_continues (env : ScanEnv)
    (project_root : FsPath) (init : Finset String × Finset String × Finset FsPath)
    (pre post : List FsPath) (bad : FsPath)
    (hp : env.parsed bad = none) (ht : env.tokens bad = none) :
    parse_imports_from_file none = ((∅ : Finset String), (∅ : Finset String))
    ∧ (pre ++ bad :: post).foldl (scan_step env project_root) init
        = (pre ++ post).foldl (scan_step env project_root) init := by
  refine ⟨rfl, ?_⟩
  have hstep : ∀ acc, scan_step env project_root acc bad = acc := by
    intro acc
    simp [scan_step, hp, parse_imports_from_file, find_literal_files, ht]
  rw [List.foldl_append, List.foldl_append, List.foldl_cons, hstep]

/-- C6 witness: with every read failing, a bad file alongside a good one
drops out of the fold. -/
theorem parse_failure_degrades_witness :
    parse_imports_from_file none = ((∅ : Finset String), (∅ : Finset String))
    ∧ ([] ++ (["bad.py"] : FsPath) :: [(["good.py"] : FsPath)]).foldl
        (scan_step null_scan_env ["r"]) (∅, ∅, ∅)
      = ([] ++ [(["good.py"] : FsPath)]).foldl (scan_step null_scan_env ["r"]) (∅, ∅, ∅) :=
  parse_failure_degrades_and_scan_continues null_scan_env ["r"] (∅, ∅, ∅)
    [] [["good.py"]] ["bad.py"] rfl rfl

/-- Helper: the token fold of `find_literal_files` only ever inserts
candidates that pass both filesystem probes. -/
theorem literal_fold_invariant (env : ScanEnv) (py_file : FsPath) (ts : List String) :
    ∀ acc : Finset FsPath,
      (∀ q ∈ acc, env.on_disk q = true ∧ env.is_file q = true) →
      ∀ q ∈ ts.foldl (literal_fold_step env py_file) acc,
        env.on_disk q = true ∧ env.is_file q = true := by
  induction ts with
  | nil => intro acc hacc q hq; exact hacc q hq
  | cons raw rest ih =>
    intro acc hacc q hq
    rw [List.foldl_cons] at hq
    refine ih (literal_fold_step env py_file acc raw) ?_ q hq
    intro q2 hq2
    by_cases h0 : raw = ""
    · rw [literal_fold_step, if_pos h0] at hq2
      exact hacc q2 hq2
    · rw [literal_fold_step, if_neg h0] at hq2
      by_cases hc : (env.on_disk (env.to_candidate py_file raw) &&
          env.is_file (env.to_candidate py_file raw)) = true
      · rw [if_pos hc] at hq2
        rcases Finset.mem_insert.mp hq2 with rfl | hmem
        · exact ⟨(Bool.and_eq_true _ _ |>.mp hc).1, (Bool.and_eq_true _ _ |>.mp hc).2⟩
        · exact hacc q2 hmem
      · rw [if_neg hc] at hq2
        exact hacc q2 hq2

/-- C7: every path in the set `find_literal_files` returns passes both
probes of the scan-time filesystem snapshot - it is on disk and is a
regular file; a matched token whose resolved candidate fails either probe
is never included. -/
theorem find_literal_files_only_existing_regular (env : ScanEnv)
    (py_file project_root p : FsPath)
    (hp : p ∈ find_literal_files env py_file project_root) :
    env.on_disk p = true ∧ env.is_file p = true := by
  revert hp
  unfold find_literal_files
  cases h : env.tokens py_file with
  | none =>
    intro hp
    exact absurd hp (Finset.not_mem_empty p)
  | some ts =>
    intro hp
    exact literal_fold_invariant env py_file ts ∅ (by simp) p hp

/-- C7 witness: the one candidate of `lit_scan_env` is in the result and
passes both probes. -/
theorem find_literal_files_witness :
    lit_scan_env.on_disk ["r", "a.txt"] = true
    ∧ lit_scan_env.is_file ["r", "a.txt"] = true :=
  find_literal_files_only_existing_regular lit_scan_env ["r", "m.py"] ["r"]
    ["r", "a.txt"] (by decide)

/-- Helper: the alias fold of an `ast.Import` node adds exactly the
top-level segments of its (nonempty) names. -/
theorem import_fold_tops (names : List String) :
    ∀ acc : Finset String, (∀ nm ∈ names, nm ≠ "") →
      names.foldl (fun acc nm => if nm = "" then acc else insert (top_level_module nm) acc) acc
        = acc ∪ (names.map top_level_module).toFinset := by
  induction names with
  | nil => intro acc _; simp
  | cons nm rest ih =>
    intro acc h
    have hnm : nm ≠ "" := h nm (List.mem_cons_self nm rest)
    rw [List.foldl_cons]
    simp only [if_neg hnm]
    rw [ih (insert (top_level_module nm) acc)
      (fun x hx => h x (List.mem_cons_of_mem nm hx))]
    ext x
    simp [List.mem_toFinset, Finset.mem_union, Finset.mem_insert]

/-- Helper: on a well-formed static import statement, one walk step adds
exactly the top-level names the statement references, and touches the
dynamic set not at all. -/
theorem parse_step_static (st : Finset String × Finset String) (n : PyNode)
    (h : static_wf n = true) :
    parse_step st n = (st.1 ∪ (stmt_tops n).toFinset, st.2) := by
  cases n with
  | importStmt names =>
    have hnames : ∀ nm ∈ names, nm ≠ "" := by
      simpa [static_wf, List.all_eq_true, bne_iff_ne] using h
    simp only [parse_step, stmt_tops]
    rw [import_fold_tops names st.1 hnames]
  | importFrom module =>
    cases module with
    | none => simp [parse_step, stmt_tops]
    | some m =>
      have hm : m ≠ "" := by simpa [static_wf, bne_iff_ne] using h
      simp only [parse_step, stmt_tops, if_neg hm]
      refine Prod.ext ?_ rfl
      ext x
      simp [Finset.mem_insert, Finset.mem_union, List.mem_toFinset]
      tauto
  | call f args keywords => simp [static_wf] at h
  | otherNode => simp [static_wf] at h

/-- Helper: the walk over a well-formed static-only node list unions in
exactly the referenced top-level names. -/
theorem foldl_parse_step_static (nodes : List PyNode)
    (h : ∀ n ∈ nodes, static_wf n = true) :
    ∀ st : Finset String × Finset String,
      nodes.foldl parse_step st = (st.1 ∪ (nodes.flatMap stmt_tops).toFinset, st.2) := by
  induction nodes with
  | nil => intro st; simp
  | cons n rest ih =>
    intro st
    rw [List.foldl_cons, parse_step_static st n (h n (List.mem_cons_self n rest)),
      ih (fun x hx => h x (List.mem_cons_of_mem n hx))]
    simp [List.flatMap_cons, List.toFinset_append, Finset.union_assoc]

/-- C8: for a file whose walked nodes are only (well-formed) static
`import` / `from import` statements, `parse_imports_from_file` returns
exactly the set of top-level module names those statements reference
(duplicate-free by construction of the set) paired with an empty
dynamic-imports set. -/
theorem parse_imports_static_only (nodes : List PyNode)
    (h : ∀ n ∈ nodes, static_wf n = true) :
    parse_imports_from_file (some nodes)
      = (((nodes.flatMap stmt_tops).toFinset : Finset String), (∅ : Finset String)) := by
  have h2 := foldl_parse_step_static nodes h ((∅ : Finset String), (∅ : Finset String))
  simpa [parse_imports_from_file] using h2

/-- C8 witness: a file of two imports, a dotted from-import and a bare
relative import yields exactly the three top-level names and no dynamic
imports. -/
theorem parse_imports_static_only_witness :
    parse_imports_from_file
        (some [PyNode.importStmt ["os", "json.tool"],
               PyNode.importFrom (some "collections.abc"),
               PyNode.importFrom none])
      = ((([PyNode.importStmt ["os", "json.tool"],
            PyNode.importFrom (some "collections.abc"),
            PyNode.importFrom none].flatMap stmt_tops).toFinset : Finset String),
         (∅ : Finset String)) :=
  parse_imports_static_only
    [PyNode.importStmt ["os", "json.tool"],
     PyNode.importFrom (some "collections.abc"),
     PyNode.importFrom none] (by decide)

/-- Helper: the line 244-245 renormalisation of a destination string is
the identity. -/
theorem dest_norm_id (d : String) : (if d = "." then "." else d) = d := by
  by_cases h : d = "." <;> simp [h]

/-- C9: for a path resolving under the project root, the destination of
its mapping entry is the parent of its root-relative path when it is a
regular file - the empty parent of a root-level file rendering as the
current directory `"."` - and its root-relative path itself when it is
not a regular file (directories in particular); for a path resolving
outside the project root, the destination is its own final name. -/
theorem map_entry_destinations (is_file : FsPath → Bool) (resolve : FsPath → FsPath)
    (sep : String) (project_root p0 : FsPath) :
    (project_root.isPrefixOf (resolve p0) = true → is_file (resolve p0) = true →
      map_entry_of is_file resolve sep project_root p0
        = (resolve p0, str_of_rel sep (((resolve p0).drop project_root.length).dropLast)))
    ∧ (project_root.isPrefixOf (resolve p0) = true → is_file (resolve p0) = false →
      map_entry_of is_file resolve sep project_root p0
        = (resolve p0, str_of_rel sep ((resolve p0).drop project_root.length)))
    ∧ (project_root.isPrefixOf (resolve p0) = true → is_file (resolve p0) = true →
      ((resolve p0).drop project_root.length).length = 1 →
      (map_entry_of is_file resolve sep project_root p0).2 = ".")
    ∧ (project_root.isPrefixOf (resolve p0) = false →
      map_entry_of is_file resolve sep project_root p0
        = (resolve p0, path_name (resolve p0))) := by
  refine ⟨?_, ?_, ?_, ?_⟩
  · intro hpre hfile
    simp only [map_entry_of, relative_to, if_pos hpre, hfile, if_true, dest_norm_id]
  · intro hpre hfile
    have hpre2 : project_root <+: resolve p0 := by simpa using hpre
    simp [map_entry_of, relative_to, hpre2, hfile, dest_norm_id]
  · intro hpre hfile hlen
    rcases List.length_eq_one.mp hlen with ⟨a, ha⟩
    simp only [map_entry_of, relative_to, if_pos hpre, hfile, if_true, ha,
      List.dropLast_single, dest_norm_id]
    rfl
  · intro hpre
    have : ¬ project_root.isPrefixOf (resolve p0) = true := by simp [hpre]
    simp only [map_entry_of, relative_to, if_neg this]
    rcases h : is_file (resolve p0) <;> simp

/-- C9 witness: a regular file one directory below the root maps to its
parent directory name. -/
theorem map_entry_destinations_witness :
    map_entry_of (fun _ => true) (fun p => p) "/" ["r"] ["r", "sub", "a.txt"]
      = (["r", "sub", "a.txt"], str_of_rel "/" ["sub"]) :=
  (map_entry_destinations (fun _ => true) (fun p => p) "/" ["r"]
    ["r", "sub", "a.txt"]).1 rfl rfl

/-- C10 counterexample: handed the unresolved script path
`["rel", "m.py"]` while the recursive walk returns the same file in
resolved form `["abs", "m.py"]`, the value-based deduplication of
`set(files)` keeps both - the deduplicated collection holds two elements
denoting the same resolved file, and both are scanned, refuting the
claim. -/
theorem scan_files_dedup_same_resolved_cex :
    ((scan_files cex_scan_env ["rel", "m.py"] true).dedup).length = 2
    ∧ ¬ (((scan_files cex_scan_env ["rel", "m.py"] true).dedup).map
        cex_scan_env.resolve).Nodup := by
  decide

/-- C10 (amended): `scan_project` deduplicates the collected files by raw
path value - the deduplicated collection contains no two equal path
values, so no path value is scanned twice; and whenever every collected
path is already in resolved form (in particular the entry script), no two
elements of the deduplicated collection denote the same resolved file.
Distinct raw values resolving to one file (an unresolved entry-script
path also met by the walk) are still scanned separately. -/
theorem scan_files_dedup_nodup (env : ScanEnv) (script_path : FsPath)
    (scan_all_py : Bool) :
    ((scan_files env script_path scan_all_py).dedup).Nodup
    ∧ ((∀ q ∈ (scan_files env script_path scan_all_py).dedup, env.resolve q = q) →
      (((scan_files env script_path scan_all_py).dedup).map env.resolve).Nodup) := by
  refine ⟨List.nodup_dedup _, fun h => ?_⟩
  have hmap : ((scan_files env script_path scan_all_py).dedup).map env.resolve
      = ((scan_files env script_path scan_all_py).dedup).map id :=
    List.map_congr_left (fun q hq => h q hq)
  rw [hmap, List.map_id]
  exact List.nodup_dedup _

/-- C10 witness: with identity resolution the deduplicated collection
denotes pairwise distinct resolved files. -/
theorem scan_files_dedup_nodup_witness :
    (((scan_files null_scan_env ["r", "m.py"] true).dedup).map
      null_scan_env.resolve).Nodup :=
  (scan_files_dedup_nodup null_scan_env ["r", "m.py"] true).2 (by decide)

end SmartInstaller
